import Mathlib

/-!
Verification of the duplicate-detection subsystem of the Email-Autoresponder
repository (`src/services/rag_service.py`, data model in `src/models/email.py`).

Shallow embedding choices:
* Python floats are modelled by `ℚ` (the arithmetic the claims speak about —
  `similarity = 1 - distance/2`, thresholds in `[0,1]` — is exact).
* The sentence-transformer model is an arbitrary deterministic, fallible
  function `Embedder : String → Except RagError (List ℚ)`; a failing model is
  one that returns `Except.error`.
* The chromadb collection is not part of the repository; its behaviour is
  modelled from the spec's SimilarityIndex contract (§4.2): insert is
  replace-on-conflict (last write wins), query returns up to `limit` nearest
  stored entries by distance (chromadb's `l2` space reports squared Euclidean
  distance), `count` is the number of stored entries, `clear` removes all
  entries.  A store whose backend is unreachable is modelled by the `broken`
  flag: every collection operation on a broken store fails.
* Python exceptions are `Except RagError` values; the `try/except` blocks of
  `rag_service.py` appear as the total wrapper functions that turn an
  `Except.error` into the logged-and-swallowed default result.
* `Email` keeps the fields that flow into this subsystem (`id`, `subject`,
  `body`, `sender`, `date`); the remaining pydantic fields (recipients, cc,
  labels, ...) are never read by the detector.  `datetime` is modelled by its
  ISO string, which is all `add_email` stores of it.
-/

/-- Failure at the embedding-model layer or at the backing-store layer. -/
inductive RagError where
  | embeddingError : RagError
  | indexError : RagError
deriving DecidableEq

/-- The fields of `src/models/email.py`'s `Email` that the RAG service reads. -/
structure Email where
  id : String
  subject : String
  body : String
  sender : String
  date : String
deriving DecidableEq

/-- The metadata dict built by `add_email` (rag_service.py lines 64-71). -/
structure EmailMetadata where
  email_id : String
  subject : String
  sender : String
  date : String
deriving DecidableEq

/-- `src/models/email.py` lines 71-80: model for grouped duplicate emails. -/
structure DuplicateEmailGroup where
  primary_email_id : String
  duplicate_ids : List String
  similarity_scores : List ℚ
  subject : String
  count : Nat
deriving DecidableEq

/-- One stored entry of the collection: id, embedding vector, the document
text that was embedded, and the display metadata. -/
structure StoreEntry where
  id : String
  embedding : List ℚ
  document : String
  metadata : EmailMetadata
deriving DecidableEq

/-- Modelled from the spec: the persistent SimilarityIndex backing store
(chromadb collection, whose code is outside this repository).  `broken = true`
models an unreachable backend: every operation on it raises. -/
structure RagStore where
  entries : List StoreEntry
  broken : Bool
deriving DecidableEq

/-- The embedding model: deterministic text → vector, fallible. -/
abbrev Embedder := String → Except RagError (List ℚ)

/-- Python's `s[:n]`: the first `n` characters of the string. -/
def takeChars (s : String) (n : Nat) : String :=
  String.mk (s.data.take n)

/-- rag_service.py lines 55 and 95: `f"{email.subject}\n\n{email.body[:1000]}"`,
the one text that is embedded (and stored) for an email. -/
def embeddingText (e : Email) : String :=
  e.subject ++ "\n\n" ++ takeChars e.body 1000

/-- rag_service.py lines 64-71: the metadata recorded with an email. -/
def mkMetadata (e : Email) : EmailMetadata :=
  { email_id := e.id, subject := e.subject, sender := e.sender, date := e.date }

/-- Modelled from the spec (§4.2): `insert(id, vector, text, metadata)` adds or
replaces the entry for `id` — no uniqueness error, last write wins.  Raises
when the backend is unreachable. -/
def collectionAdd (s : RagStore) (en : StoreEntry) : Except RagError RagStore :=
  if s.broken then Except.error RagError.indexError
  else Except.ok { s with entries := s.entries.filter (fun x => x.id ≠ en.id) ++ [en] }

/-- Squared Euclidean (L2) distance, the measure chromadb's default `l2` space
reports for query results. -/
def sqDist (v w : List ℚ) : ℚ :=
  (List.zipWith (fun a b => (a - b) * (a - b)) v w).sum

/-- Insert an (id, distance) pair into a distance-sorted list. -/
def insertByDist (p : String × ℚ) : List (String × ℚ) → List (String × ℚ)
  | [] => [p]
  | q :: qs => if p.2 ≤ q.2 then p :: q :: qs else q :: insertByDist p qs

/-- Sort (id, distance) pairs by ascending distance (nearest first). -/
def sortByDist : List (String × ℚ) → List (String × ℚ)
  | [] => []
  | p :: ps => insertByDist p (sortByDist ps)

/-- Modelled from the spec (§4.2): `query(vector, limit)` returns up to
`limit` stored ids with their distances, nearest first; an empty index yields
an empty sequence, an unreachable backend raises. -/
def queryNearest (s : RagStore) (v : List ℚ) (limit : Nat) :
    Except RagError (List (String × ℚ)) :=
  if s.broken then Except.error RagError.indexError
  else Except.ok ((sortByDist (s.entries.map (fun en => (en.id, sqDist v en.embedding)))).take limit)

/-- Modelled from the spec (§4.2): observation of the entry currently stored
for an id (chromadb `collection.get`). -/
def RagStore.getEntry (s : RagStore) (i : String) : Option StoreEntry :=
  s.entries.find? (fun x => x.id = i)

/-- rag_service.py lines 53-73: the body of `add_email` — embed the text,
then add (id, embedding, document, metadata) to the collection.  Any raised
error is propagated to the wrapper. -/
def add_email_run (embed : Embedder) (s : RagStore) (e : Email) :
    Except RagError RagStore :=
  match embed (embeddingText e) with
  | Except.error er => Except.error er
  | Except.ok v =>
      collectionAdd s
        { id := e.id, embedding := v, document := embeddingText e,
          metadata := mkMetadata e }

/-- rag_service.py lines 47-78: `add_email` catches every exception (logging
it) — on failure the store is unchanged and the call returns normally. -/
def add_email (embed : Embedder) (s : RagStore) (e : Email) : RagStore :=
  match add_email_run embed s e with
  | Except.ok s1 => s1
  | Except.error _ => s

/-- rag_service.py lines 107-118: the result loop of `find_similar_emails` —
skip the self-match, convert each distance to `1 - distance/2`, and keep the
pairs whose similarity reaches the threshold. -/
def processResults (selfId : String) (threshold : ℚ) :
    List (String × ℚ) → List (String × ℚ)
  | [] => []
  | (eid, d) :: rest =>
    if eid = selfId then processResults selfId threshold rest
    else
      if threshold ≤ 1 - d / 2 then (eid, 1 - d / 2) :: processResults selfId threshold rest
      else processResults selfId threshold rest

/-- rag_service.py lines 93-125: the body of `find_similar_emails` — embed the
query text, query the collection for `limit` nearest entries, post-process. -/
def find_similar_emails_run (embed : Embedder) (s : RagStore) (e : Email)
    (threshold : ℚ) (limit : Nat) : Except RagError (List (String × ℚ)) :=
  match embed (embeddingText e) with
  | Except.error er => Except.error er
  | Except.ok v =>
      match queryNearest s v limit with
      | Except.error er => Except.error er
      | Except.ok results => Except.ok (processResults e.id threshold results)

/-- rag_service.py lines 80-129: `find_similar_emails` catches every exception
and returns the empty list in that case. -/
def find_similar_emails (embed : Embedder) (s : RagStore) (e : Email)
    (threshold : ℚ) (limit : Nat) : List (String × ℚ) :=
  match find_similar_emails_run embed s e threshold limit with
  | Except.ok r => r
  | Except.error _ => []

/-- rag_service.py lines 144-173: the batch loop of `detect_duplicates`.
`processed` is the `processed_ids` set (a list, with membership as the only
observation).  `find_similar_emails` is called with the Python default
`limit = 10`. -/
def detectLoop (embed : Embedder) (s : RagStore) (threshold : ℚ) :
    List Email → List String → List DuplicateEmailGroup
  | [], _ => []
  | e :: rest, processed =>
    if e.id ∈ processed then
      detectLoop embed s threshold rest processed
    else
      if find_similar_emails embed s e threshold 10 = [] then
        detectLoop embed s threshold rest processed
      else
        { primary_email_id := e.id
          duplicate_ids := (find_similar_emails embed s e threshold 10).map Prod.fst
          similarity_scores := (find_similar_emails embed s e threshold 10).map Prod.snd
          subject := e.subject
          count := ((find_similar_emails embed s e threshold 10).map Prod.fst).length + 1 } ::
        detectLoop embed s threshold rest
          (processed ++ e.id :: (find_similar_emails embed s e threshold 10).map Prod.fst)

/-- rag_service.py lines 131-177: `detect_duplicates` runs the batch loop with
an empty processed set (its own `except` is unreachable in the model because
`find_similar_emails` already swallows all failures, exactly as in the code). -/
def detect_duplicates (embed : Embedder) (s : RagStore) (emails : List Email)
    (threshold : ℚ) : List DuplicateEmailGroup :=
  detectLoop embed s threshold emails []

/-- rag_service.py lines 179-188: `get_email_count` returns the collection
count, or 0 when the store raises. -/
def get_email_count (s : RagStore) : Nat :=
  if s.broken then 0 else s.entries.length

/-- rag_service.py lines 190-200: `clear_store` deletes and recreates the
collection; a raised error is caught and logged, leaving the store as it was. -/
def clear_store (s : RagStore) : RagStore :=
  if s.broken then s else { s with entries := [] }

/-- The ids placed in the returned groups, primaries and members together. -/
def allGroupIds : List DuplicateEmailGroup → List String
  | [] => []
  | g :: gs => (g.primary_email_id :: g.duplicate_ids) ++ allGroupIds gs

/-- The truncation as the specification words it: the embedded text would be
the first 1000 characters of the concatenated subject and body. -/
def claimedEmbeddingText (e : Email) : String :=
  takeChars (e.subject ++ e.body) 1000

/-- An always-succeeding embedding model mapping every text to `[0]`. -/
def embedZero : Embedder := fun _ => Except.ok [0]

/-- An embedding model whose backend is down: every call raises. -/
def embedFail : Embedder := fun _ => Except.error RagError.embeddingError

/-- Sample metadata for concrete store entries. -/
def sampleMeta : EmailMetadata :=
  { email_id := "A", subject := "a", sender := "s", date := "d" }

/-- Sample stored entry with id `A` at the origin. -/
def entryA : StoreEntry :=
  { id := "A", embedding := [0], document := "a", metadata := sampleMeta }

/-- Sample stored entry with id `B`, same embedding as `A`. -/
def entryB : StoreEntry :=
  { id := "B", embedding := [0], document := "b", metadata := sampleMeta }

/-- A healthy two-entry store: `A` and `B` share the same embedding. -/
def sampleStore : RagStore := { entries := [entryA, entryB], broken := false }

/-- A store whose backend is unreachable. -/
def brokenStore : RagStore := { entries := [entryA], broken := true }

/-- Email with id `A`, subject `a`, empty body. -/
def emailA : Email := { id := "A", subject := "a", body := "", sender := "s", date := "d" }

/-- A second email with the same id `A` but different text and metadata. -/
def emailA2 : Email :=
  { id := "A", subject := "a2", body := "other text", sender := "s2", date := "d2" }

/-- The duplicate group that `detect_duplicates` forms for `emailA` over
`sampleStore`: primary `A`, sole member `B` at similarity 1. -/
def groupAB : DuplicateEmailGroup :=
  { primary_email_id := "A", duplicate_ids := ["B"], similarity_scores := [1],
    subject := "a", count := 2 }

/-- Embedding model for the chain configuration: `emailA`'s text maps to
`[0]`, every other text to `[14/5]`. -/
def chainEmbed : Embedder :=
  fun t => if t = "a\n\n" then Except.ok [0] else Except.ok [(14 : ℚ) / 5]

/-- Stored entry `B` at `[7/5]`, close to both `A` and `C`. -/
def entryMid : StoreEntry :=
  { id := "B", embedding := [(7 : ℚ) / 5], document := "b", metadata := sampleMeta }

/-- Stored entry `C` at `[14/5]`, close to `B` but far from `A`. -/
def entryFar : StoreEntry :=
  { id := "C", embedding := [(14 : ℚ) / 5], document := "c", metadata := sampleMeta }

/-- A store holding the chain `A — B — C`: adjacent entries are within the
similarity threshold 0, the two ends are not. -/
def chainStore : RagStore := { entries := [entryA, entryMid, entryFar], broken := false }

/-- Email with id `C`, subject `c`, empty body (embedded at `[14/5]`). -/
def emailC : Email := { id := "C", subject := "c", body := "", sender := "s", date := "d" }

/-- An email whose subject alone is 1200 characters long. -/
def longEmail : Email :=
  { id := "X", subject := String.mk (List.replicate 1200 'a'),
    body := String.mk (List.replicate 1200 'b'), sender := "s", date := "d" }

/-- A healthy store with no entries yet. -/
def emptyStore : RagStore := { entries := [], broken := false }

/-- An embedding model that agrees with `embedZero` on every text except
`"zzz"`, where it raises instead. -/
def embedAlt : Embedder :=
  fun t => if t = "zzz" then Except.error RagError.embeddingError else Except.ok [0]

/-! ### Helper lemmas about the query pipeline -/

theorem mem_insertByDist (q p : String × ℚ) (l : List (String × ℚ)) :
    q ∈ insertByDist p l ↔ q = p ∨ q ∈ l := by
  induction l with
  | nil => simp [insertByDist]
  | cons r rs ih =>
    simp only [insertByDist]
    by_cases h : p.2 ≤ r.2
    · rw [if_pos h]; simp
    · rw [if_neg h]; simp [ih]; tauto

theorem mem_sortByDist (q : String × ℚ) (l : List (String × ℚ)) :
    q ∈ sortByDist l ↔ q ∈ l := by
  induction l with
  | nil => simp [sortByDist]
  | cons r rs ih => simp [sortByDist, mem_insertByDist, ih]

theorem sqDist_nonneg (v w : List ℚ) : 0 ≤ sqDist v w := by
  induction v generalizing w with
  | nil => simp [sqDist]
  | cons a as ih =>
    cases w with
    | nil => simp [sqDist]
    | cons b bs =>
      have h2 := ih bs
      simp only [sqDist, List.zipWith_cons_cons, List.sum_cons] at h2 ⊢
      have h1 : 0 ≤ (a - b) * (a - b) := mul_self_nonneg _
      linarith

theorem queryNearest_mem {s : RagStore} {v : List ℚ} {limit : Nat}
    {res : List (String × ℚ)} {p : String × ℚ}
    (hq : queryNearest s v limit = Except.ok res) (hp : p ∈ res) :
    ∃ en, en ∈ s.entries ∧ p = (en.id, sqDist v en.embedding) := by
  unfold queryNearest at hq
  by_cases hb : s.broken = true
  · rw [if_pos hb] at hq; cases hq
  · rw [if_neg hb] at hq
    cases hq
    have h1 : p ∈ sortByDist (s.entries.map (fun en => (en.id, sqDist v en.embedding))) :=
      List.take_subset _ _ hp
    rw [mem_sortByDist] at h1
    rcases List.mem_map.mp h1 with ⟨en, hen, hpe⟩
    exact ⟨en, hen, hpe.symm⟩

theorem processResults_mem {selfId : String} {t : ℚ} {l : List (String × ℚ)}
    {p : String × ℚ} (hp : p ∈ processResults selfId t l) :
    p.1 ≠ selfId ∧ t ≤ p.2 ∧ ∃ d, (p.1, d) ∈ l ∧ p.2 = 1 - d / 2 := by
  induction l with
  | nil => simp [processResults] at hp
  | cons r rs ih =>
    obtain ⟨eid, d⟩ := r
    simp only [processResults] at hp
    by_cases h1 : eid = selfId
    · rw [if_pos h1] at hp
      rcases ih hp with ⟨hne, hth, d', hmem, hsc⟩
      exact ⟨hne, hth, d', List.mem_cons_of_mem _ hmem, hsc⟩
    · rw [if_neg h1] at hp
      by_cases h2 : t ≤ 1 - d / 2
      · rw [if_pos h2] at hp
        rcases List.mem_cons.mp hp with rfl | hp'
        · exact ⟨h1, h2, d, List.mem_cons_self _ _, rfl⟩
        · rcases ih hp' with ⟨hne, hth, d', hmem, hsc⟩
          exact ⟨hne, hth, d', List.mem_cons_of_mem _ hmem, hsc⟩
      · rw [if_neg h2] at hp
        rcases ih hp with ⟨hne, hth, d', hmem, hsc⟩
        exact ⟨hne, hth, d', List.mem_cons_of_mem _ hmem, hsc⟩

theorem mem_find_similar {embed : Embedder} {s : RagStore} {e : Email} {t : ℚ}
    {l : Nat} {p : String × ℚ} (hp : p ∈ find_similar_emails embed s e t l) :
    ∃ v results, embed (embeddingText e) = Except.ok v ∧
      queryNearest s v l = Except.ok results ∧ p ∈ processResults e.id t results := by
  unfold find_similar_emails at hp
  split at hp
  case _ res hrun =>
    unfold find_similar_emails_run at hrun
    split at hrun
    case _ => cases hrun
    case _ v hemb =>
      split at hrun
      case _ => cases hrun
      case _ results hq =>
        cases hrun
        exact ⟨v, results, hemb, hq, hp⟩
  case _ => cases hp

theorem find_similar_broken {embed : Embedder} {s : RagStore} (e : Email)
    (t : ℚ) (l : Nat) (hb : s.broken = true) :
    find_similar_emails embed s e t l = [] := by
  unfold find_similar_emails find_similar_emails_run queryNearest
  rw [hb]
  cases hemb : embed (embeddingText e) <;> simp

theorem find_similar_embed_err {embed : Embedder} {s : RagStore} {e : Email}
    (t : ℚ) (l : Nat) {er : RagError}
    (he : embed (embeddingText e) = Except.error er) :
    find_similar_emails embed s e t l = [] := by
  unfold find_similar_emails find_similar_emails_run
  rw [he]

theorem add_email_broken {embed : Embedder} {s : RagStore} (e : Email)
    (hb : s.broken = true) : add_email embed s e = s := by
  unfold add_email add_email_run collectionAdd
  rw [hb]
  cases hemb : embed (embeddingText e) <;> simp

theorem add_email_embed_err {embed : Embedder} {s : RagStore} {e : Email}
    {er : RagError} (he : embed (embeddingText e) = Except.error er) :
    add_email embed s e = s := by
  unfold add_email add_email_run
  rw [he]

theorem add_email_ok {embed : Embedder} {s : RagStore} {e : Email} {v : List ℚ}
    (he : embed (embeddingText e) = Except.ok v) (hb : s.broken = false) :
    add_email embed s e =
      { entries := s.entries.filter (fun x => x.id ≠ e.id) ++
          [{ id := e.id, embedding := v, document := embeddingText e,
             metadata := mkMetadata e }],
        broken := false } := by
  unfold add_email add_email_run collectionAdd
  rw [he, hb]
  simp

theorem detectLoop_nil_of_find_nil {embed : Embedder} {s : RagStore} {t : ℚ}
    (hfind : ∀ e : Email, find_similar_emails embed s e t 10 = []) :
    ∀ (es : List Email) (processed : List String),
      detectLoop embed s t es processed = [] := by
  intro es
  induction es with
  | nil => intro _; rfl
  | cons e rest ih =>
    intro processed
    unfold detectLoop
    by_cases h : e.id ∈ processed
    · rw [if_pos h]; exact ih _
    · rw [if_neg h, if_pos (hfind e)]; exact ih _

theorem detectLoop_primary_notin {embed : Embedder} {s : RagStore} {t : ℚ} :
    ∀ (es : List Email) (processed : List String),
      ∀ g ∈ detectLoop embed s t es processed, g.primary_email_id ∉ processed := by
  intro es
  induction es with
  | nil => intro processed g hg; cases hg
  | cons e rest ih =>
    intro processed g hg
    unfold detectLoop at hg
    by_cases h1 : e.id ∈ processed
    · rw [if_pos h1] at hg; exact ih processed g hg
    · rw [if_neg h1] at hg
      by_cases h2 : find_similar_emails embed s e t 10 = []
      · rw [if_pos h2] at hg; exact ih processed g hg
      · rw [if_neg h2] at hg
        rcases List.mem_cons.mp hg with rfl | hg'
        · exact h1
        · intro hc
          exact ih _ g hg' (List.mem_append_left _ hc)

theorem detectLoop_pairwise {embed : Embedder} {s : RagStore} {t : ℚ} :
    ∀ (es : List Email) (processed : List String),
      List.Pairwise
        (fun g1 g2 => g2.primary_email_id ≠ g1.primary_email_id ∧
          g2.primary_email_id ∉ g1.duplicate_ids)
        (detectLoop embed s t es processed) := by
  intro es
  induction es with
  | nil => intro processed; exact List.Pairwise.nil
  | cons e rest ih =>
    intro processed
    unfold detectLoop
    by_cases h1 : e.id ∈ processed
    · rw [if_pos h1]; exact ih processed
    · rw [if_neg h1]
      by_cases h2 : find_similar_emails embed s e t 10 = []
      · rw [if_pos h2]; exact ih processed
      · rw [if_neg h2]
        refine List.Pairwise.cons ?_ (ih _)
        intro g2 hg2
        have hnot := detectLoop_primary_notin rest _ g2 hg2
        constructor
        · intro he
          exact hnot (List.mem_append_right _ (he ▸ List.mem_cons_self _ _))
        · intro hm
          exact hnot (List.mem_append_right _ (List.mem_cons_of_mem _ hm))

theorem detectLoop_group_shape {embed : Embedder} {s : RagStore} {t : ℚ} :
    ∀ (es : List Email) (processed : List String),
      ∀ g ∈ detectLoop embed s t es processed,
        g.duplicate_ids.length = g.similarity_scores.length ∧
        g.duplicate_ids ≠ [] ∧
        g.count = g.duplicate_ids.length + 1 ∧
        ∃ e, e ∈ es ∧ g.primary_email_id = e.id ∧
          g.duplicate_ids.zip g.similarity_scores =
            find_similar_emails embed s e t 10 := by
  intro es
  induction es with
  | nil => intro processed g hg; cases hg
  | cons e rest ih =>
    intro processed g hg
    unfold detectLoop at hg
    by_cases h1 : e.id ∈ processed
    · rw [if_pos h1] at hg
      rcases ih processed g hg with ⟨ha, hb, hc, e', he', hd⟩
      exact ⟨ha, hb, hc, e', List.mem_cons_of_mem _ he', hd⟩
    · rw [if_neg h1] at hg
      by_cases h2 : find_similar_emails embed s e t 10 = []
      · rw [if_pos h2] at hg
        rcases ih processed g hg with ⟨ha, hb, hc, e', he', hd⟩
        exact ⟨ha, hb, hc, e', List.mem_cons_of_mem _ he', hd⟩
      · rw [if_neg h2] at hg
        rcases List.mem_cons.mp hg with rfl | hg'
        · refine ⟨by simp, ?_, rfl, e, List.mem_cons_self _ _, rfl, ?_⟩
          · simp only [ne_eq, List.map_eq_nil_iff]
            exact h2
          · exact (List.zip_of_prod rfl rfl).symm
        · rcases ih _ g hg' with ⟨ha, hb, hc, e', he', hd⟩
          exact ⟨ha, hb, hc, e', List.mem_cons_of_mem _ he', hd⟩

theorem find?_append_singleton {α : Type} (p : α → Bool) (l : List α) (a : α)
    (h : ∀ x ∈ l, p x = false) (ha : p a = true) :
    (l ++ [a]).find? p = some a := by
  induction l with
  | nil => simp [List.find?, ha]
  | cons b bs ih =>
    have hb := h b (List.mem_cons_self _ _)
    rw [List.cons_append, List.find?_cons_of_neg _ (by simp [hb])]
    exact ih (fun x hx => h x (List.mem_cons_of_mem _ hx))

/-! ### Claim theorems -/

section
attribute [local semireducible] Rat.mul Rat.sub Rat.add Rat.inv

/-- C4: for a caller-supplied threshold in [0,1], every (id, score) pair
returned by `find_similar_emails` has its score computed as
`1 - distance/2` from that match's (squared L2) distance in the query
result, satisfies `score ≥ threshold`, and lies in [0,1]. -/
theorem find_similar_score_bounds (embed : Embedder) (s : RagStore) (e : Email)
    (t : ℚ) (l : Nat) (h0 : 0 ≤ t) (_h1 : t ≤ 1) (id : String) (sc : ℚ)
    (hmem : (id, sc) ∈ find_similar_emails embed s e t l) :
    t ≤ sc ∧ 0 ≤ sc ∧ sc ≤ 1 ∧
    ∃ v results d, embed (embeddingText e) = Except.ok v ∧
      queryNearest s v l = Except.ok results ∧ (id, d) ∈ results ∧
      0 ≤ d ∧ sc = 1 - d / 2 := by
  rcases mem_find_similar hmem with ⟨v, results, hemb, hq, hproc⟩
  rcases processResults_mem hproc with ⟨hne, hth, d, hdmem, hsc⟩
  rcases queryNearest_mem hq hdmem with ⟨en, hen, hpe⟩
  have hth' : t ≤ sc := hth
  have hsc' : sc = 1 - d / 2 := hsc
  have hd0 : 0 ≤ d := by
    have hsnd : d = sqDist v en.embedding := congrArg Prod.snd hpe
    rw [hsnd]
    exact sqDist_nonneg _ _
  refine ⟨hth', le_trans h0 hth', ?_, v, results, d, hemb, hq, hdmem, hd0, hsc'⟩
  rw [hsc']
  linarith

/-- C4 witness: over `sampleStore`, querying for `emailA` at threshold 0
returns the pair `("B", 1)`, and the theorem's bounds hold for it. -/
theorem find_similar_score_bounds_witness :
    (("B", (1 : ℚ)) ∈ find_similar_emails embedZero sampleStore emailA 0 10) ∧
    ((0 : ℚ) ≤ 1 ∧ (0 : ℚ) ≤ (1 : ℚ) ∧ (1 : ℚ) ≤ 1 ∧
      ∃ v results d, embedZero (embeddingText emailA) = Except.ok v ∧
        queryNearest sampleStore v 10 = Except.ok results ∧ ("B", d) ∈ results ∧
        0 ≤ d ∧ (1 : ℚ) = 1 - d / 2) :=
  ⟨by decide,
    find_similar_score_bounds embedZero sampleStore emailA 0 10 (by decide)
      (by decide) "B" 1 (by decide)⟩

/-- C5: a pair returned by `find_similar_emails` never carries the id of the
query email itself, over every store state and embedder. -/
theorem find_similar_excludes_self (embed : Embedder) (s : RagStore) (e : Email)
    (t : ℚ) (l : Nat) (p : String × ℚ)
    (hp : p ∈ find_similar_emails embed s e t l) : p.1 ≠ e.id := by
  rcases mem_find_similar hp with ⟨v, results, hemb, hq, hproc⟩
  exact (processResults_mem hproc).1

/-- C5 witness: with `emailA` itself stored in `sampleStore`, the query
still only returns `("B", 1)`, whose id differs from `emailA.id`. -/
theorem find_similar_excludes_self_witness :
    (("B", (1 : ℚ)) ∈ find_similar_emails embedZero sampleStore emailA 0 10) ∧
    ("B", (1 : ℚ)).1 ≠ emailA.id :=
  ⟨by decide,
    find_similar_excludes_self embedZero sampleStore emailA 0 10 ("B", 1) (by decide)⟩

/-- C9: across the groups of one `detect_duplicates` call, a later group's
primary id differs from every earlier group's primary id and does not occur
among any earlier group's duplicate_ids (and primaries are pairwise
distinct). -/
theorem detect_duplicates_primary_fresh (embed : Embedder) (s : RagStore)
    (emails : List Email) (t : ℚ) :
    List.Pairwise
      (fun g1 g2 => g2.primary_email_id ≠ g1.primary_email_id ∧
        g2.primary_email_id ∉ g1.duplicate_ids)
      (detect_duplicates embed s emails t) := by
  have h : List.Pairwise
      (fun g1 g2 => g2.primary_email_id ≠ g1.primary_email_id ∧
        g2.primary_email_id ∉ g1.duplicate_ids)
      (detectLoop embed s t emails []) := detectLoop_pairwise emails []
  exact h

/-- C1 (amended): in one `detect_duplicates` call no id occurs more than once
among the groups' primary ids, and an id placed in a group (as primary or
member) never becomes the primary of a later group; member ids, however, can
repeat across groups (see the counterexample). -/
theorem detect_duplicates_primary_exclusivity (embed : Embedder) (s : RagStore)
    (emails : List Email) (t : ℚ) :
    ((detect_duplicates embed s emails t).map
        (fun g => g.primary_email_id)).Nodup ∧
    List.Pairwise (fun g1 g2 => g2.primary_email_id ∉ g1.duplicate_ids)
      (detect_duplicates embed s emails t) := by
  have h : List.Pairwise
      (fun g1 g2 => g2.primary_email_id ≠ g1.primary_email_id ∧
        g2.primary_email_id ∉ g1.duplicate_ids)
      (detectLoop embed s t emails []) := detectLoop_pairwise emails []
  constructor
  · exact List.Pairwise.map _ (fun a b hab => fun hc => hab.1 hc.symm) h
  · exact h.imp (fun hab => hab.2)

/-- C1 counterexample: over the chain store A — B — C (adjacent entries
within threshold, the ends not), batch detection of [emailA, emailC] yields
the groups (A, [B]) and (C, [B]): id B is a member of two groups, so the
union of primary and member ids across groups is not duplicate-free. -/
theorem detect_duplicates_shared_member_cex :
    (detect_duplicates chainEmbed chainStore [emailA, emailC] 0).map
        (fun g => (g.primary_email_id, g.duplicate_ids)) =
      [("A", ["B"]), ("C", ["B"])] ∧
    ¬ (allGroupIds (detect_duplicates chainEmbed chainStore [emailA, emailC] 0)).Nodup :=
  ⟨by decide, by decide⟩

/-- C7: every group returned by `detect_duplicates` has exactly as many
similarity scores as duplicate ids, with the scores parallel to the members
in the same order — zipping duplicate_ids with similarity_scores recovers
exactly the (id, score) match list that `find_similar_emails` returned for
the group's primary email — and is only emitted when its duplicate_ids list
is non-empty. -/
theorem detect_group_scores_parallel (embed : Embedder) (s : RagStore)
    (emails : List Email) (t : ℚ) (g : DuplicateEmailGroup)
    (hg : g ∈ detect_duplicates embed s emails t) :
    g.duplicate_ids.length = g.similarity_scores.length ∧
    g.duplicate_ids ≠ [] ∧
    ∃ e, e ∈ emails ∧ g.primary_email_id = e.id ∧
      g.duplicate_ids.zip g.similarity_scores =
        find_similar_emails embed s e t 10 := by
  rcases detectLoop_group_shape emails [] g hg with ⟨ha, hb, hc, e, he, hid, hzip⟩
  exact ⟨ha, hb, e, he, hid, hzip⟩

/-- C7 witness: the single group formed for `emailA` over `sampleStore`
carries one member and one score. -/
theorem detect_group_scores_parallel_witness :
    (groupAB ∈ detect_duplicates embedZero sampleStore [emailA] 0) ∧
    (groupAB.duplicate_ids.length = groupAB.similarity_scores.length ∧
      groupAB.duplicate_ids ≠ [] ∧
      ∃ e, e ∈ [emailA] ∧ groupAB.primary_email_id = e.id ∧
        groupAB.duplicate_ids.zip groupAB.similarity_scores =
          find_similar_emails embedZero sampleStore e 0 10) :=
  ⟨by decide,
    detect_group_scores_parallel embedZero sampleStore [emailA] 0 groupAB (by decide)⟩

/-- C10: every group returned by `detect_duplicates` has its count field
equal to the number of duplicate ids plus one for the primary. -/
theorem detect_group_count_field (embed : Embedder) (s : RagStore)
    (emails : List Email) (t : ℚ) (g : DuplicateEmailGroup)
    (hg : g ∈ detect_duplicates embed s emails t) :
    g.count = g.duplicate_ids.length + 1 :=
  (detectLoop_group_shape emails [] g hg).2.2.1

/-- C10 witness: the group formed for `emailA` over `sampleStore` has one
member and count 2. -/
theorem detect_group_count_field_witness :
    (groupAB ∈ detect_duplicates embedZero sampleStore [emailA] 0) ∧
    groupAB.count = groupAB.duplicate_ids.length + 1 :=
  ⟨by decide,
    detect_group_count_field embedZero sampleStore [emailA] 0 groupAB (by decide)⟩

/-- C8: after `clear_store`, `get_email_count` returns 0 whatever the prior
state was — directly when the clear succeeded, and through the
count-swallows-errors path when the backend is down. -/
theorem clear_store_count_zero (s : RagStore) :
    get_email_count (clear_store s) = 0 := by
  cases hs : s.broken <;> simp [clear_store, get_email_count, hs]

end

section
attribute [local semireducible] Rat.mul Rat.sub Rat.add Rat.inv

/-- C3: when the embedding model or the backing store fails, `add_email`
returns normally leaving the store unchanged, `find_similar_emails` returns
the empty list, and `detect_duplicates` returns the empty list — no failure
escapes the three operations. -/
theorem rag_failure_yields_empty (embed : Embedder) (s : RagStore) (e : Email)
    (emails : List Email) (t : ℚ) (l : Nat)
    (h : s.broken = true ∨ ∀ txt : String, ∃ er, embed txt = Except.error er) :
    add_email embed s e = s ∧
    find_similar_emails embed s e t l = [] ∧
    detect_duplicates embed s emails t = [] := by
  have hfind : ∀ (e' : Email) (t' : ℚ) (l' : Nat),
      find_similar_emails embed s e' t' l' = [] := by
    intro e' t' l'
    rcases h with hb | hfail
    · exact find_similar_broken e' t' l' hb
    · rcases hfail (embeddingText e') with ⟨er, he⟩
      exact find_similar_embed_err t' l' he
  have hadd : add_email embed s e = s := by
    rcases h with hb | hfail
    · exact add_email_broken e hb
    · rcases hfail (embeddingText e) with ⟨er, he⟩
      exact add_email_embed_err he
  exact ⟨hadd, hfind e t l,
    detectLoop_nil_of_find_nil (fun e' => hfind e' t 10) emails []⟩

/-- C3 witness: over a store whose backend is down, all three operations
degrade to their defaults. -/
theorem rag_failure_yields_empty_witness :
    brokenStore.broken = true ∧
    (add_email embedZero brokenStore emailA = brokenStore ∧
      find_similar_emails embedZero brokenStore emailA 0 10 = [] ∧
      detect_duplicates embedZero brokenStore [emailA] 0 = []) :=
  ⟨rfl,
    rag_failure_yields_empty embedZero brokenStore emailA [emailA] 0 10 (Or.inl rfl)⟩

/-- Helper for C2: refiltering after a replace-insert with the same id leaves
the already-filtered prefix unchanged and drops the replaced entry. -/
theorem filter_ne_append_self (l : List StoreEntry) (i : String)
    (en : StoreEntry) (hi : en.id = i) :
    (l.filter (fun x => x.id ≠ i) ++ [en]).filter (fun x => x.id ≠ i) =
      l.filter (fun x => x.id ≠ i) := by
  rw [List.filter_append, List.filter_filter]
  simp [hi]

/-- Helper for C2 and C6: looking up an id right after its replace-insert
finds the new entry. -/
theorem getEntry_after_insert (l : List StoreEntry) (i : String)
    (en : StoreEntry) (hi : en.id = i) :
    (l.filter (fun x => x.id ≠ i) ++ [en]).find? (fun x => x.id = i) = some en := by
  apply find?_append_singleton
  · intro x hx
    rcases List.mem_filter.mp hx with ⟨hmem, hxp⟩
    simp only [decide_eq_true_eq] at hxp
    simp [hxp]
  · simp [hi]

/-- Helper for C2: a healthy insert completes with `Except.ok` — the store
raises no uniqueness error on an id conflict. -/
theorem add_email_run_ok {embed : Embedder} {s : RagStore} {e : Email}
    {v : List ℚ} (he : embed (embeddingText e) = Except.ok v)
    (hb : s.broken = false) :
    ∃ s2, add_email_run embed s e = Except.ok s2 := by
  unfold add_email_run collectionAdd
  rw [he, hb]
  simp

/-- C2: inserting a second email with the same id (different text and
metadata) leaves the store count unchanged, replaces the stored document and
metadata with those of the second call, and raises no uniqueness error. -/
theorem add_email_last_write_wins (embed : Embedder) (s : RagStore)
    (e1 e2 : Email) (v1 v2 : List ℚ)
    (h1 : embed (embeddingText e1) = Except.ok v1)
    (h2 : embed (embeddingText e2) = Except.ok v2)
    (hb : s.broken = false) (hid : e1.id = e2.id) :
    get_email_count (add_email embed (add_email embed s e1) e2) =
      get_email_count (add_email embed s e1) ∧
    (add_email embed (add_email embed s e1) e2).getEntry e2.id =
      some { id := e2.id, embedding := v2, document := embeddingText e2,
             metadata := mkMetadata e2 } ∧
    ∃ s2, add_email_run embed (add_email embed s e1) e2 = Except.ok s2 := by
  rw [add_email_ok h1 hb, add_email_ok h2 rfl]
  simp only [hid]
  refine ⟨?_, ?_, ?_⟩
  · simp only [get_email_count, if_neg]
    rw [filter_ne_append_self s.entries e2.id _ rfl]
    simp
  · unfold RagStore.getEntry
    simp only []
    rw [filter_ne_append_self s.entries e2.id _ rfl]
    exact getEntry_after_insert s.entries e2.id _ rfl
  · exact add_email_run_ok h2 rfl

/-- C2 witness: inserting `emailA` and then `emailA2` (same id `A`, different
subject, body, sender, date) into an empty store keeps the count at 1 and
stores `emailA2`'s text and metadata. -/
theorem add_email_last_write_wins_witness :
    (embedZero (embeddingText emailA) = Except.ok [0] ∧
      embedZero (embeddingText emailA2) = Except.ok [0] ∧
      emptyStore.broken = false ∧ emailA.id = emailA2.id) ∧
    (get_email_count (add_email embedZero (add_email embedZero emptyStore emailA) emailA2) =
        get_email_count (add_email embedZero emptyStore emailA) ∧
      (add_email embedZero (add_email embedZero emptyStore emailA) emailA2).getEntry emailA2.id =
        some { id := emailA2.id, embedding := [0], document := embeddingText emailA2,
               metadata := mkMetadata emailA2 } ∧
      ∃ s2, add_email_run embedZero (add_email embedZero emptyStore emailA) emailA2 =
        Except.ok s2) :=
  ⟨⟨rfl, rfl, rfl, rfl⟩,
    add_email_last_write_wins embedZero emptyStore emailA emailA2 [0] [0]
      rfl rfl rfl rfl⟩

/-- Helper for the C6 counterexample: the text the code embeds for
`longEmail` keeps the whole 1200-character subject and 1000 body characters. -/
theorem embeddingText_longEmail_len : (embeddingText longEmail).length = 2202 := by
  simp only [embeddingText, takeChars, String.length_append, String.length_mk,
    List.length_take, List.length_replicate,
    show longEmail.body.data = List.replicate 1200 'b' from rfl,
    show longEmail.subject.length = (List.replicate 1200 'a').length from rfl,
    show ("\n\n" : String).length = 2 from rfl]
  omega

/-- Helper for the C6 counterexample: the first 1000 characters of the
concatenated subject and body are 1000 characters. -/
theorem claimedEmbeddingText_longEmail_len :
    (claimedEmbeddingText longEmail).length = 1000 := by
  simp only [claimedEmbeddingText, takeChars, String.length_mk, List.length_take,
    String.data_append, List.length_append, List.length_replicate,
    show longEmail.subject.data = List.replicate 1200 'a' from rfl,
    show longEmail.body.data = List.replicate 1200 'b' from rfl]
  omega

/-- C6 counterexample: for an email with a 1200-character subject, the text
the code embeds (subject, blank line, first 1000 body characters — 2202
characters in total) is not the first ~1000 characters of the concatenated
subject+body: only the body is ever truncated, the subject never is. -/
theorem embedding_text_truncation_cex :
    embeddingText longEmail ≠ claimedEmbeddingText longEmail ∧
    (embeddingText longEmail).length = 2202 ∧
    (claimedEmbeddingText longEmail).length = 1000 := by
  refine ⟨?_, embeddingText_longEmail_len, claimedEmbeddingText_longEmail_len⟩
  intro h
  have h2 := congrArg String.length h
  rw [embeddingText_longEmail_len, claimedEmbeddingText_longEmail_len] at h2
  exact absurd h2 (by decide)

/-- C6 (amended): `add_email` and `find_similar_emails` embed the same text
for an email — both depend on the embedder only through its value at
`embeddingText e` — and that text is the subject, a blank-line separator and
the first 1000 characters of the body (only the body is truncated); the
stored document is exactly the embedded text. -/
theorem embedding_text_shared_and_stored (embed1 embed2 : Embedder)
    (s : RagStore) (e : Email) (t : ℚ) (l : Nat) (v : List ℚ)
    (hagree : embed1 (embeddingText e) = embed2 (embeddingText e))
    (hok : embed1 (embeddingText e) = Except.ok v)
    (hb : s.broken = false) :
    find_similar_emails embed1 s e t l = find_similar_emails embed2 s e t l ∧
    add_email embed1 s e = add_email embed2 s e ∧
    ∃ en, (add_email embed1 s e).getEntry e.id = some en ∧
      en.document = embeddingText e ∧ en.embedding = v ∧
      en.document = e.subject ++ "\n\n" ++ takeChars e.body 1000 := by
  refine ⟨?_, ?_, ?_⟩
  · unfold find_similar_emails find_similar_emails_run
    rw [hagree]
  · unfold add_email add_email_run
    rw [hagree]
  · rw [add_email_ok hok hb]
    refine ⟨{ id := e.id, embedding := v, document := embeddingText e,
              metadata := mkMetadata e }, ?_, rfl, rfl, rfl⟩
    unfold RagStore.getEntry
    exact getEntry_after_insert s.entries e.id _ rfl

/-- C6 witness: two embedders that agree on `emailA`'s embedding text give
identical results for both operations, and the stored document for `A` is
exactly the embedded text. -/
theorem embedding_text_shared_and_stored_witness :
    (embedZero (embeddingText emailA) = embedAlt (embeddingText emailA) ∧
      embedZero (embeddingText emailA) = Except.ok [0] ∧
      emptyStore.broken = false) ∧
    (find_similar_emails embedZero emptyStore emailA 0 10 =
        find_similar_emails embedAlt emptyStore emailA 0 10 ∧
      add_email embedZero emptyStore emailA = add_email embedAlt emptyStore emailA ∧
      ∃ en, (add_email embedZero emptyStore emailA).getEntry emailA.id = some en ∧
        en.document = embeddingText emailA ∧ en.embedding = [0] ∧
        en.document = emailA.subject ++ "\n\n" ++ takeChars emailA.body 1000) :=
  ⟨⟨rfl, rfl, rfl⟩,
    embedding_text_shared_and_stored embedZero embedAlt emptyStore emailA 0 10 [0]
      rfl rfl rfl⟩

end
